import Mathlib

/-!
Verification development for the agentic NQL engine
(`app/agentic_engine.py`): a shallow embedding of the
reasoning-loop controller, planner, tool dispatcher, SQL synthesizer,
quality assessor and conversation memory, with theorems checking the
specification's claims against the embedded code.
-/

namespace AgenticEngine

/-! ### String primitives

Python's `needle in hay` substring test, `str.lower`, and `s[:-1]`
are modelled on the underlying character lists. -/

/-- Prefix test on character lists (needle first). -/
def listPre : List Char → List Char → Bool
  | [], _ => true
  | _ :: _, [] => false
  | a :: as, b :: bs => a == b && listPre as bs

/-- Substring test on character lists: some suffix of the haystack
has the needle as a prefix.  Mirrors Python's `needle in hay`. -/
def listContains (needle : List Char) : List Char → Bool
  | [] => listPre needle []
  | c :: t => listPre needle (c :: t) || listContains needle t

/-- Python `needle in hay` on strings. -/
def strContains (hay needle : String) : Bool :=
  listContains needle.data hay.data

/-- Python `str.lower()` (ASCII, which covers every string the engine
compares against). -/
def lowerStr (s : String) : String :=
  ⟨s.data.map Char.toLower⟩

/-- Python `s[:-1]` (drop the final character). -/
def stripLast (s : String) : String :=
  ⟨s.data.dropLast⟩

/-! ### Regular-expression model

`_build_filter_query` uses `re.search` with patterns of the shape
`p1.*?p2.*?(\d+)` (and one with `(\w+)`), returning group 1.  With
Python's leftmost, lazy semantics this is: scan for the first start
position where `p1` matches literally and the remainder of the
pattern can complete; after `p1`, take the first occurrence of `p2`
(within the same line, since `.` does not cross a newline) after
which a character of the target class occurs before any newline;
group 1 is the maximal run of class characters from that first
class character (`+` is greedy and ends the pattern).  The three
functions below implement exactly that search, including the
backtracking to a later `p2` occurrence when no class character
follows before a newline. -/

/-- After a newline-free lazy gap, the maximal run of `cls`
characters starting at the first `cls` character (`.*?(C+)` where
`C` is the class). -/
def runAfterGap (cls : Char → Bool) : List Char → Option (List Char)
  | [] => none
  | c :: t =>
    if cls c then some ((c :: t).takeWhile cls)
    else if c == '\n' then none
    else runAfterGap cls t

/-- `p2.*?(C+)` searched lazily with a newline-free gap before `p2`:
try `p2` at each position (backtracking past a `p2` occurrence whose
tail has no class character before a newline). -/
def scanThenRun (p2 : List Char) (cls : Char → Bool) : List Char → Option (List Char)
  | [] => if listPre p2 [] then runAfterGap cls (List.drop p2.length []) else none
  | c :: t =>
    match (if listPre p2 (c :: t) then runAfterGap cls (List.drop p2.length (c :: t)) else none) with
    | some r => some r
    | none => if c == '\n' then none else scanThenRun p2 cls t

/-- `re.search(p1 ++ ".*?" ++ p2 ++ ".*?(C+)", s).group(1)`:
try every start position for the literal `p1` (the scan to the match
start is not newline-restricted), completing with `scanThenRun`. -/
def searchTwoThenRun (p1 p2 : List Char) (cls : Char → Bool) : List Char → Option (List Char)
  | [] => if listPre p1 [] then scanThenRun p2 cls (List.drop p1.length []) else none
  | c :: t =>
    match (if listPre p1 (c :: t) then scanThenRun p2 cls (List.drop p1.length (c :: t)) else none) with
    | some r => some r
    | none => searchTwoThenRun p1 p2 cls t

/-- Group 1 of `re.search(p1.*?p2.*?(\d+), s)`. -/
def regexNumGroup (p1 p2 s : String) : Option String :=
  (searchTwoThenRun p1.data p2.data Char.isDigit s.data).map (fun l => ⟨l⟩)

/-- Python's `\w` character class (ASCII part). -/
def isWordChar (c : Char) : Bool :=
  c.isAlphanum || c == '_'

/-- Group 1 of `re.search(p1.*?p2.*?(\w+), s)`. -/
def regexWordGroup (p1 p2 s : String) : Option String :=
  (searchTwoThenRun p1.data p2.data isWordChar s.data).map (fun l => ⟨l⟩)

/-! ### SQL synthesizer (`_construct_sql_query` and helpers) -/

/-- `_is_count_query`. -/
def isCountQuery (queryLower : String) : Bool :=
  ["count", "how many", "number of", "total number"].any
    (fun indicator => strContains queryLower indicator)

/-- `_is_aggregate_query`. -/
def isAggregateQuery (queryLower : String) : Bool :=
  ["average", "avg", "mean", "sum", "total", "maximum", "max", "minimum", "min"].any
    (fun indicator => strContains queryLower indicator)

/-- `_is_filter_query`. -/
def isFilterQuery (queryLower : String) : Bool :=
  ["greater than", "less than", "equal to", "contains", "with", "having", "where"].any
    (fun indicator => strContains queryLower indicator)

/-- `_is_show_all_query`. -/
def isShowAllQuery (queryLower : String) : Bool :=
  ["show all", "list all", "display all", "get all", "all"].any
    (fun indicator => strContains queryLower indicator)

/-- `_determine_primary_table`. -/
def determinePrimaryTable (userQuery : String) (relevantTables : List String) : String :=
  let queryLower := lowerStr userQuery
  if strContains queryLower "user" then "users"
  else if strContains queryLower "product" then "products"
  else if strContains queryLower "order" then "orders"
  else if strContains queryLower "category" then "categories"
  else if strContains queryLower "review" then "reviews"
  else if strContains queryLower "supplier" then "suppliers"
  else if strContains queryLower "inventory" then "inventory"
  else match relevantTables with
    | t :: _ => t
    | [] => "users"

/-- `_build_count_query`. -/
def buildCountQuery (queryLower table : String) : String :=
  if strContains queryLower "user" then "SELECT COUNT(*) as user_count FROM users"
  else if strContains queryLower "product" then "SELECT COUNT(*) as product_count FROM products"
  else if strContains queryLower "order" then "SELECT COUNT(*) as order_count FROM orders"
  else "SELECT COUNT(*) as total_count FROM " ++ table

/-- `_build_aggregate_query`. -/
def buildAggregateQuery (queryLower table : String) : String :=
  if strContains queryLower "average" || strContains queryLower "avg" then
    if strContains queryLower "price" then "SELECT AVG(price) as average_price FROM products"
    else if strContains queryLower "age" then "SELECT AVG(age) as average_age FROM users"
    else "SELECT AVG(price) as average_value FROM " ++ table
  else if strContains queryLower "sum" || strContains queryLower "total" then
    if strContains queryLower "order" then "SELECT SUM(total_amount) as total_orders FROM orders"
    else "SELECT SUM(price) as total_value FROM " ++ table
  else if strContains queryLower "maximum" || strContains queryLower "max" then
    if strContains queryLower "price" then "SELECT MAX(price) as max_price FROM products"
    else "SELECT MAX(price) as max_value FROM " ++ table
  else if strContains queryLower "minimum" || strContains queryLower "min" then
    if strContains queryLower "price" then "SELECT MIN(price) as min_price FROM products"
    else "SELECT MIN(price) as min_value FROM " ++ table
  else "SELECT AVG(price) as average_value FROM " ++ table

/-- The age/`greater than` branch of `_build_filter_query`: the guard
`'age' in q and 'greater than' in q` followed by the regex search. -/
def ageGtNum (queryLower : String) : Option String :=
  if strContains queryLower "age" && strContains queryLower "greater than" then
    regexNumGroup "age" "greater than" queryLower
  else none

/-- The age/`less than` branch guard plus regex of `_build_filter_query`. -/
def ageLtNum (queryLower : String) : Option String :=
  if strContains queryLower "age" && strContains queryLower "less than" then
    regexNumGroup "age" "less than" queryLower
  else none

/-- The price/`greater than` branch guard plus regex of `_build_filter_query`. -/
def priceGtNum (queryLower : String) : Option String :=
  if strContains queryLower "price" && strContains queryLower "greater than" then
    regexNumGroup "price" "greater than" queryLower
  else none

/-- The price/`less than` branch guard plus regex of `_build_filter_query`. -/
def priceLtNum (queryLower : String) : Option String :=
  if strContains queryLower "price" && strContains queryLower "less than" then
    regexNumGroup "price" "less than" queryLower
  else none

/-- The email/`containing` branch guard plus regex of `_build_filter_query`. -/
def emailContainWord (queryLower : String) : Option String :=
  if strContains queryLower "email" && strContains queryLower "containing" then
    regexWordGroup "email" "containing" queryLower
  else none

/-- `_build_filter_query`: each regex branch returns on a match and
falls through otherwise; then the two status-literal branches; then
the default. -/
def buildFilterQuery (queryLower table : String) : String :=
  match ageGtNum queryLower with
  | some n => "SELECT * FROM users WHERE age > " ++ n ++ " LIMIT 100"
  | none =>
  match ageLtNum queryLower with
  | some n => "SELECT * FROM users WHERE age < " ++ n ++ " LIMIT 100"
  | none =>
  match priceGtNum queryLower with
  | some n => "SELECT * FROM products WHERE price > " ++ n ++ " LIMIT 100"
  | none =>
  match priceLtNum queryLower with
  | some n => "SELECT * FROM products WHERE price < " ++ n ++ " LIMIT 100"
  | none =>
  match emailContainWord queryLower with
  | some w => "SELECT * FROM users WHERE email LIKE '%" ++ w ++ "%' LIMIT 100"
  | none =>
  if strContains queryLower "completed" && strContains queryLower "order" then
    "SELECT * FROM orders WHERE status = 'completed' LIMIT 100"
  else if strContains queryLower "premium" || strContains queryLower "subscription" then
    "SELECT * FROM users WHERE subscription_type = 'premium' LIMIT 100"
  else "SELECT * FROM " ++ table ++ " LIMIT 100"

/-- `_build_show_all_query`. -/
def buildShowAllQuery (queryLower table : String) : String :=
  if strContains queryLower "user" then "SELECT * FROM users LIMIT 100"
  else if strContains queryLower "product" then "SELECT * FROM products LIMIT 100"
  else if strContains queryLower "order" then "SELECT * FROM orders LIMIT 100"
  else if strContains queryLower "category" then "SELECT * FROM categories LIMIT 100"
  else "SELECT * FROM " ++ table ++ " LIMIT 100"

/-- `_build_general_query`. -/
def buildGeneralQuery (queryLower table : String) : String :=
  if strContains queryLower "name" && strContains queryLower "user" then
    "SELECT first_name, last_name, email FROM users LIMIT 100"
  else if strContains queryLower "name" && strContains queryLower "product" then
    "SELECT name, price, brand FROM products LIMIT 100"
  else "SELECT * FROM " ++ table ++ " LIMIT 100"

/-- `_construct_sql_query`. -/
def constructSqlQuery (userQuery : String) (relevantTables : List String) : String :=
  let queryLower := lowerStr userQuery
  let primaryTable := determinePrimaryTable userQuery relevantTables
  if isCountQuery queryLower then buildCountQuery queryLower primaryTable
  else if isAggregateQuery queryLower then buildAggregateQuery queryLower primaryTable
  else if isFilterQuery queryLower then buildFilterQuery queryLower primaryTable
  else if isShowAllQuery queryLower then buildShowAllQuery queryLower primaryTable
  else buildGeneralQuery queryLower primaryTable

/-! ### Intent analysis and planning (`_analyze_deep_intent`,
`_assess_query_complexity`, `_plan`) -/

/-- The tool tags (`ToolType` enum). -/
inductive ToolType where
  | SCHEMA_EXPLORER
  | QUERY_BUILDER
  | DATA_ANALYZER
  | RESULT_VALIDATOR
  | OPTIMIZER
deriving DecidableEq, Repr

/-- `ToolType.value` (the string payload of each enum member). -/
def ToolType.value : ToolType → String
  | .SCHEMA_EXPLORER => "schema_explorer"
  | .QUERY_BUILDER => "query_builder"
  | .DATA_ANALYZER => "data_analyzer"
  | .RESULT_VALIDATOR => "result_validator"
  | .OPTIMIZER => "optimizer"

/-- The intent dict built by `_analyze_deep_intent`.  The `filters`
and `aggregations` keys are initialised to empty lists and never
written, so they are omitted here. -/
structure Intent where
  primaryAction : String
  targetEntities : List String
  complexityIndicators : List String
  needsSchemaExploration : Bool
  needsQueryBuilding : Bool
deriving DecidableEq, Repr

/-- The keys of `self.schema_knowledge`, in dict insertion order. -/
def schemaKnowledgeTables : List String :=
  ["users", "products", "orders"]

/-- The source determines schema-exploration need with
`len(intent['target_entities']) == 0 or 'complexity_indicators' in intent`:
the right operand tests membership of the KEY `'complexity_indicators'`
in the intent dict, and that key is set unconditionally when the
intent is constructed, so the test is always true. -/
def complexityIndicatorsKeyPresent : Bool := true

/-- `_analyze_deep_intent`. -/
def analyzeDeepIntent (userQuery : String) : Intent :=
  let queryLower := lowerStr userQuery
  let primaryAction :=
    if ["count", "how many"].any (fun w => strContains queryLower w) then "count"
    else if ["show", "display", "list", "get"].any (fun w => strContains queryLower w) then "select"
    else if ["average", "avg", "mean"].any (fun w => strContains queryLower w) then "aggregate"
    else if ["find", "search"].any (fun w => strContains queryLower w) then "search"
    else "unknown"
  let targetEntities := schemaKnowledgeTables.filter
    (fun t => strContains queryLower t || strContains queryLower (stripLast t))
  let complexityIndicators :=
    (if targetEntities.length > 1 then ["multi_table"] else [])
    ++ (if ["join", "relationship", "related"].any (fun w => strContains queryLower w) then
          ["joins_required"] else [])
    ++ (if ["group by", "aggregate", "sum", "count"].any (fun w => strContains queryLower w) then
          ["aggregation"] else [])
  { primaryAction := primaryAction
    targetEntities := targetEntities
    complexityIndicators := complexityIndicators
    needsSchemaExploration :=
      decide (targetEntities.length = 0) || complexityIndicatorsKeyPresent
    needsQueryBuilding := true }

/-- The complexity dict built by `_assess_query_complexity`. -/
structure Complexity where
  score : Nat
  level : String
  indicators : List String
  needsDataAnalysis : Bool
  needsOptimization : Bool
deriving DecidableEq, Repr

/-- `_assess_query_complexity`. -/
def assessQueryComplexity (intent : Intent) : Complexity :=
  let score :=
    (if intent.primaryAction = "aggregate" then 2 else 0)
    + (if intent.targetEntities.length > 1 then 3 else 0)
    + (if intent.complexityIndicators ≠ [] then intent.complexityIndicators.length else 0)
  let indicators :=
    (if intent.primaryAction = "aggregate" then ["aggregation"] else [])
    ++ (if intent.targetEntities.length > 1 then ["multi_table"] else [])
    ++ (if intent.complexityIndicators ≠ [] then intent.complexityIndicators else [])
  { score := score
    level := if score ≥ 5 then "high" else if score ≥ 2 then "medium" else "low"
    indicators := indicators
    needsDataAnalysis := decide (score ≥ 3)
    needsOptimization := decide (score ≥ 4) }

/-- `_determine_strategy`. -/
def determineStrategy (complexity : Complexity) : String :=
  if complexity.level = "high" then "iterative_refinement"
  else if complexity.level = "medium" then "planned_execution"
  else "direct_execution"

/-- The tool sequence chosen by `_plan` (its `tools` /
`execution_order` entry, which are the same list). -/
def planTools (userQuery : String) : List ToolType :=
  let intent := analyzeDeepIntent userQuery
  let complexity := assessQueryComplexity intent
  (if intent.needsSchemaExploration then [ToolType.SCHEMA_EXPLORER] else [])
  ++ (if intent.needsQueryBuilding then [ToolType.QUERY_BUILDER] else [])
  ++ (if complexity.needsDataAnalysis then [ToolType.DATA_ANALYZER] else [])
  ++ (if complexity.needsOptimization then [ToolType.OPTIMIZER] else [])
  ++ [ToolType.RESULT_VALIDATOR]

/-! ### Tool results and the dispatcher (`_act`) -/

/-- Projection of the heterogeneous tool-result dicts: only the
fields the verified properties inspect are modelled.  A key absent
from the source dict is `none` here. -/
structure ToolResult where
  status : String
  error : Option String := none
  sqlQuery : Option String := none
  message : Option String := none
  relevantTables : Option (List String) := none
deriving DecidableEq, Repr

/-- `tool_results`: the iteration-scoped dict keyed by tool tag,
as an ordered association list (Python dicts preserve insertion
order). -/
abbrev ToolResults := List (String × ToolResult)

/-- Python dict assignment `d[k] = v`: overwrite in place if the key
exists, else append. -/
def insertResult : ToolResults → String → ToolResult → ToolResults
  | [], k, v => [(k, v)]
  | (k', v') :: rest, k, v =>
    if k' == k then (k, v) :: rest else (k', v') :: insertResult rest k v

/-- Python `d.get(k)` on the results dict. -/
def lookupResult (tr : ToolResults) (k : String) : Option ToolResult :=
  match tr with
  | [] => none
  | (k', v) :: rest => if k' == k then some v else lookupResult rest k

/-- The keys of the results dict, in order. -/
def resultKeys (tr : ToolResults) : List String :=
  tr.map (fun p => p.1)

/-- The failure record `{'error': str(e), 'status': 'failed'}` that
`_act` writes when a handler raises. -/
def failedResult (e : String) : ToolResult :=
  { status := "failed", error := some e }

/-- A tool handler: a function of the query-fixed environment and the
accumulated prior results that either returns a result dict or
raises (`Except.error` models the raised exception's message). -/
abbrev Handler := ToolResults → Except String ToolResult

/-- The per-tool try/except body of `_act`: a raised exception is
downgraded to `failedResult` under the same tag. -/
def dispatchTool (h : Handler) (acc : ToolResults) : ToolResult :=
  match h acc with
  | Except.ok r => r
  | Except.error e => failedResult e

/-- `_act`: run every planned tool in order, each against the
accumulated results of its predecessors, recording each outcome
under the tool's tag. -/
def act (handlers : ToolType → Handler) (plan : List ToolType) : ToolResults :=
  plan.foldl (fun acc t => insertResult acc t.value (dispatchTool (handlers t) acc)) []

/-! ### SQL fallback, observation and the agentic loop
(`_agentic_loop`, `_observe`, `_assess_result_quality`,
`_needs_refinement`) -/

/-- `tool_results.get('query_builder', {}).get('sql_query')`. -/
def getSql (tr : ToolResults) : Option String :=
  (lookupResult tr "query_builder").bind (fun r => r.sqlQuery)

/-- Falsity of the Python truthiness test on the looked-up SQL
string: the key chain is missing or the string is empty. -/
def sqlMissing (tr : ToolResults) : Bool :=
  match getSql tr with
  | none => true
  | some s => s == ""

/-- The fallback record written at lines 127-131 of the source. -/
def fallbackResult (sql : String) : ToolResult :=
  { status := "completed", sqlQuery := some sql,
    message := some "Generated using fallback method" }

/-- Lines 122-131 of `_agentic_loop`: if the acting phase left no
(truthy) SQL under `query_builder`, synthesize one locally with
`_construct_sql_query(user_query, ["users"])` and store it (the
store is itself guarded by the truthiness of the fallback SQL). -/
def ensureSql (userQuery : String) (tr : ToolResults) : ToolResults :=
  if sqlMissing tr then
    let fallbackSql := constructSqlQuery userQuery ["users"]
    if fallbackSql == "" then tr
    else insertResult tr "query_builder" (fallbackResult fallbackSql)
  else tr

/-- The environment a loop iteration runs in: for each iteration
index and tool, the handler's behaviour (covering both the MCP path
and the local path, and any external failure). -/
abbrev Env := Nat → ToolType → Handler

/-- One iteration of the loop body up to the observation phase:
plan (the plan is a function of the query alone), act, then the
SQL fallback guarantee. -/
def iterBody (env : Env) (i : Nat) (userQuery : String) : ToolResults :=
  ensureSql userQuery (act (env i) (planTools userQuery))

/-- The quality dict of `_assess_result_quality`: a fixed constant,
independent of the tool results (floats modelled as rationals). -/
structure Quality where
  confidence : ℚ
  completeness : ℚ
deriving DecidableEq

/-- `_assess_result_quality`. -/
def assessResultQuality (_tr : ToolResults) : Quality :=
  { confidence := 0.8, completeness := 0.9 }

/-- `_needs_refinement`: `quality.get('confidence', 1.0) < 0.7`
(the key is always present in the quality dict). -/
def needsRefinementFrom (quality : Quality) : Bool :=
  decide (quality.confidence < 0.7)

/-- The refinement signal computed by `_observe`. -/
def observeRefine (tr : ToolResults) : Bool :=
  needsRefinementFrom (assessResultQuality tr)

/-- `self.max_iterations`. -/
def maxIterations : Nat := 5

/-- The `while` loop of `_agentic_loop`, parametric in the
refinement signal (`needsRef`, fed the entered iteration's counter
value and action result) so that properties hold regardless of the
observe phase's behaviour.  `fuel` bounds the number of body
executions the model can take; the returned pair is the final
iteration counter and the final action result (`none` when the loop
exhausted the cap without completing). -/
def loopGen (needsRef : Nat → ToolResults → Bool) (env : Env) (userQuery : String) :
    Nat → Nat → Option (Nat × Option ToolResults)
  | 0, count =>
    if count < maxIterations then none
    else some (count, none)
  | fuel + 1, count =>
    if count < maxIterations then
      let c := count + 1
      let action := iterBody env c userQuery
      if needsRef c action then loopGen needsRef env userQuery fuel c
      else some (c, some action)
    else some (count, none)

/-- `_agentic_loop` as called from `process_query`: the counter is
reset to 0 before the loop and the refinement signal is the one
computed by `_observe`. -/
def agenticLoop (env : Env) (userQuery : String) : Option (Nat × Option ToolResults) :=
  loopGen (fun _ tr => observeRefine tr) env userQuery maxIterations 0

/-! ### Conversation memory and context reset
(`_update_conversation_memory`, `clear_context`) -/

/-- One conversation-memory entry. -/
structure MemoryEntry where
  query : String
  timestamp : String
  context : List (String × String)
deriving DecidableEq, Repr

/-- The append-then-truncate core of `_update_conversation_memory`:
append the new entry, then keep only the last 10 entries. -/
def memAppend (mem : List MemoryEntry) (e : MemoryEntry) : List MemoryEntry :=
  let m := mem ++ [e]
  if m.length > 10 then m.drop (m.length - 10) else m

/-- `_update_conversation_memory` (the timestamp is produced by the
clock and passed in here). -/
def updateConversationMemory (mem : List MemoryEntry) (userQuery timestamp : String)
    (context : List (String × String)) : List MemoryEntry :=
  memAppend mem { query := userQuery, timestamp := timestamp, context := context }

/-- The engine fields reset by `clear_context`. -/
structure EngineState where
  conversationMemory : List MemoryEntry
  currentContext : List (String × String)
  reasoningChain : List String
  toolResults : ToolResults
  iterationCount : Nat

/-- `clear_context`. -/
def clearContext (s : EngineState) : EngineState :=
  { s with conversationMemory := [], currentContext := [],
           reasoningChain := [], toolResults := [], iterationCount := 0 }

/-! ### Optimizer and local query-building tool
(`_apply_optimizations`, `_build_query`) -/

/-- `_apply_optimizations`. -/
def applyOptimizations (sql : String) : String :=
  if strContains sql "SELECT *" && !strContains sql "LIMIT" then sql ++ " LIMIT 100"
  else sql

/-- The local `_build_query` tool handler (the spec-relevant
projection: `tables_used`, `query_type` and `complexity_score` are
additional payload fields not inspected by any verified property). -/
def localBuildQuery (userQuery : String) (previousResults : ToolResults) : ToolResult :=
  let relevantTables :=
    match lookupResult previousResults "schema_explorer" with
    | some r => r.relevantTables.getD ["users"]
    | none => ["users"]
  { status := "completed",
    sqlQuery := some (constructSqlQuery userQuery relevantTables) }

/-- The disjunction of the guard-plus-match conditions of the
supported filter branches of `_build_filter_query` (age, price,
email-containing, completed-order, premium/subscription): exactly
when it is false does the function reach its default return. -/
def filterPatternMatches (queryLower : String) : Bool :=
  (ageGtNum queryLower).isSome || (ageLtNum queryLower).isSome
  || (priceGtNum queryLower).isSome || (priceLtNum queryLower).isSome
  || (emailContainWord queryLower).isSome
  || (strContains queryLower "completed" && strContains queryLower "order")
  || (strContains queryLower "premium" || strContains queryLower "subscription")

/-- The table names `_determine_primary_table` can return. -/
def knownTables : List String :=
  ["users", "products", "orders", "categories", "reviews", "suppliers", "inventory"]

/-! ### Helper lemmas -/

theorem listContains_append_right (n b : List Char) (a : List Char)
    (h : listContains n b = true) : listContains n (a ++ b) = true := by
  induction a with
  | nil => simpa using h
  | cons c t ih => simp only [List.cons_append, listContains, Bool.or_eq_true]; exact Or.inr ih

theorem strContains_append_right (a b n : String) (h : strContains b n = true) :
    strContains (a ++ b) n = true := by
  unfold strContains at h ⊢
  rw [String.data_append]
  exact listContains_append_right _ _ _ h

theorem headS_append (a b : String) (h : a.data.head? = some 'S') :
    (a ++ b).data.head? = some 'S' := by
  rw [String.data_append]
  cases h' : a.data with
  | nil => rw [h'] at h; cases h
  | cons c t => rw [h'] at h; simpa using h

theorem buildCountQuery_headS (ql t : String) :
    (buildCountQuery ql t).data.head? = some 'S' := by
  unfold buildCountQuery
  repeat' split
  all_goals first
    | decide
    | (apply headS_append; decide)

theorem buildAggregateQuery_headS (ql t : String) :
    (buildAggregateQuery ql t).data.head? = some 'S' := by
  unfold buildAggregateQuery
  repeat' split
  all_goals first
    | decide
    | (apply headS_append; decide)

theorem buildFilterQuery_headS (ql t : String) :
    (buildFilterQuery ql t).data.head? = some 'S' := by
  unfold buildFilterQuery
  repeat' split
  all_goals first
    | decide
    | (apply headS_append; decide)
    | (apply headS_append; apply headS_append; decide)

theorem buildShowAllQuery_headS (ql t : String) :
    (buildShowAllQuery ql t).data.head? = some 'S' := by
  unfold buildShowAllQuery
  repeat' split
  all_goals first
    | decide
    | (apply headS_append; apply headS_append; decide)

theorem buildGeneralQuery_headS (ql t : String) :
    (buildGeneralQuery ql t).data.head? = some 'S' := by
  unfold buildGeneralQuery
  repeat' split
  all_goals first
    | decide
    | (apply headS_append; apply headS_append; decide)

theorem constructSqlQuery_headS (q : String) (tables : List String) :
    (constructSqlQuery q tables).data.head? = some 'S' := by
  show (if isCountQuery (lowerStr q) then
          buildCountQuery (lowerStr q) (determinePrimaryTable q tables)
        else if isAggregateQuery (lowerStr q) then
          buildAggregateQuery (lowerStr q) (determinePrimaryTable q tables)
        else if isFilterQuery (lowerStr q) then
          buildFilterQuery (lowerStr q) (determinePrimaryTable q tables)
        else if isShowAllQuery (lowerStr q) then
          buildShowAllQuery (lowerStr q) (determinePrimaryTable q tables)
        else buildGeneralQuery (lowerStr q) (determinePrimaryTable q tables)).data.head?
      = some 'S'
  repeat' split
  all_goals first
    | exact buildCountQuery_headS _ _
    | exact buildAggregateQuery_headS _ _
    | exact buildFilterQuery_headS _ _
    | exact buildShowAllQuery_headS _ _
    | exact buildGeneralQuery_headS _ _

theorem constructSqlQuery_ne_empty (q : String) (tables : List String) :
    constructSqlQuery q tables ≠ "" := by
  intro h
  have hh := constructSqlQuery_headS q tables
  rw [h] at hh
  cases hh

theorem lookupResult_insertResult_self (tr : ToolResults) (k : String) (v : ToolResult) :
    lookupResult (insertResult tr k v) k = some v := by
  induction tr with
  | nil => simp [insertResult, lookupResult]
  | cons p rest ih =>
    obtain ⟨k', v'⟩ := p
    by_cases hk : (k' == k) = true
    · simp [insertResult, hk, lookupResult]
    · simp [insertResult, hk, lookupResult, ih]

/-! ### Claim theorems -/

/-- Claim C7: the input query `Find users with age greater than 30`
is routed to the filter branch of the synthesizer, the bound 30 is
extracted by the age-greater-than regex, and the result is exactly
`SELECT * FROM users WHERE age > 30 LIMIT 100`. -/
theorem constructSql_age_filter_example :
    constructSqlQuery "Find users with age greater than 30" ["users"]
      = "SELECT * FROM users WHERE age > 30 LIMIT 100" := by decide

/-- Claim C8: `_apply_optimizations` appends `LIMIT 100` exactly
when the SQL contains `SELECT *` and no `LIMIT`, is otherwise the
identity, and is idempotent (a second application never adds a
second LIMIT). -/
theorem applyOptimizations_characterization_idempotent :
    (∀ sql : String, applyOptimizations sql =
        (if strContains sql "SELECT *" && !strContains sql "LIMIT"
         then sql ++ " LIMIT 100" else sql))
    ∧ (∀ sql : String,
        applyOptimizations (applyOptimizations sql) = applyOptimizations sql) := by
  constructor
  · intro sql; rfl
  · intro sql
    by_cases h : (strContains sql "SELECT *" && !strContains sql "LIMIT") = true
    · have h1 : applyOptimizations sql = sql ++ " LIMIT 100" := by
        unfold applyOptimizations; rw [h]; rfl
      have h2 : strContains (sql ++ " LIMIT 100") "LIMIT" = true :=
        strContains_append_right _ _ _ (by decide)
      rw [h1]
      unfold applyOptimizations
      rw [h2]
      simp
    · have h1 : applyOptimizations sql = sql := by
        unfold applyOptimizations
        rw [Bool.not_eq_true] at h
        rw [h]
        simp
      rw [h1, h1]

/-- Claim C9: starting from the empty memory, any sequence of
insertions leaves exactly the last (at most) 10 entries in insertion
order — so the memory never exceeds 10 entries, the 11th insertion
evicts exactly the oldest entry — and `clear_context` empties the
memory. -/
theorem conversationMemory_bounded_fifo :
    (∀ es : List MemoryEntry,
        es.foldl memAppend [] = es.drop (es.length - 10)
        ∧ (es.foldl memAppend []).length ≤ 10)
    ∧ (∀ (mem : List MemoryEntry) (q ts : String) (ctx : List (String × String)),
        updateConversationMemory mem q ts ctx = memAppend mem ⟨q, ts, ctx⟩)
    ∧ (∀ s : EngineState, (clearContext s).conversationMemory = []) := by
  have memAppend_eq : ∀ (mem : List MemoryEntry) (e : MemoryEntry), mem.length ≤ 10 →
      memAppend mem e = (mem ++ [e]).drop ((mem ++ [e]).length - 10) := by
    intro mem e h
    simp only [memAppend]
    by_cases h' : (mem ++ [e]).length > 10
    · rw [if_pos h']
    · rw [if_neg h']
      have h0 : (mem ++ [e]).length - 10 = 0 := by
        simp only [List.length_append, List.length_cons, List.length_nil] at h' ⊢
        omega
      rw [h0, List.drop_zero]
  have memAppend_le : ∀ (mem : List MemoryEntry) (e : MemoryEntry), mem.length ≤ 10 →
      (memAppend mem e).length ≤ 10 := by
    intro mem e h
    rw [memAppend_eq mem e h]
    simp only [List.length_drop, List.length_append, List.length_cons, List.length_nil]
    omega
  have key : ∀ (es : List MemoryEntry) (mem : List MemoryEntry), mem.length ≤ 10 →
      es.foldl memAppend mem = (mem ++ es).drop ((mem ++ es).length - 10) := by
    intro es
    induction es with
    | nil =>
      intro mem h
      simp only [List.foldl_nil, List.append_nil]
      have h0 : mem.length - 10 = 0 := by omega
      rw [h0, List.drop_zero]
    | cons e rest ih =>
      intro mem h
      rw [List.foldl_cons, ih (memAppend mem e) (memAppend_le mem e h), memAppend_eq mem e h]
      rw [← List.drop_append_of_le_length (Nat.sub_le (mem ++ [e]).length 10)]
      rw [List.drop_drop]
      have harr : (mem ++ [e]) ++ rest = mem ++ e :: rest := by simp
      rw [harr]
      congr 1
      simp only [List.length_drop, List.length_append, List.length_cons, List.length_nil]
      omega
  refine ⟨?_, fun mem q ts ctx => rfl, fun s => rfl⟩
  intro es
  have h := key es [] (by simp)
  simp only [List.nil_append] at h
  refine ⟨h, ?_⟩
  rw [h]
  simp only [List.length_drop]
  omega

theorem resultKeys_append (a b : ToolResults) :
    resultKeys (a ++ b) = resultKeys a ++ resultKeys b := by
  simp [resultKeys]

theorem insertResult_of_not_mem (tr : ToolResults) (k : String) (v : ToolResult)
    (h : k ∉ resultKeys tr) : insertResult tr k v = tr ++ [(k, v)] := by
  induction tr with
  | nil => rfl
  | cons p rest ih =>
    obtain ⟨k', v'⟩ := p
    simp only [resultKeys, List.map_cons, List.mem_cons] at h
    push_neg at h
    have hk : (k' == k) = false := by
      simp only [beq_eq_false_iff_ne, ne_eq]
      exact fun hkk => h.1 hkk.symm
    simp only [insertResult, hk, Bool.false_eq_true, if_false, List.cons_append,
      List.cons.injEq, true_and]
    exact ih (by simpa [resultKeys] using h.2)

theorem act_keys_go (handlers : ToolType → Handler) :
    ∀ (plan : List ToolType) (acc : ToolResults),
      (plan.map ToolType.value).Nodup →
      (∀ t ∈ plan, t.value ∉ resultKeys acc) →
      resultKeys (plan.foldl
        (fun acc t => insertResult acc t.value (dispatchTool (handlers t) acc)) acc)
        = resultKeys acc ++ plan.map ToolType.value := by
  intro plan
  induction plan with
  | nil => intro acc _ _; simp
  | cons t rest ih =>
    intro acc hnd hdisj
    rw [List.foldl_cons]
    have hstep : insertResult acc t.value (dispatchTool (handlers t) acc)
        = acc ++ [(t.value, dispatchTool (handlers t) acc)] :=
      insertResult_of_not_mem _ _ _ (hdisj t (List.mem_cons_self t rest))
    rw [hstep]
    rw [List.map_cons, List.nodup_cons] at hnd
    have hrest : ∀ t' ∈ rest, t'.value ∉ resultKeys (acc ++ [(t.value, dispatchTool (handlers t) acc)]) := by
      intro t' ht'
      rw [resultKeys_append]
      simp only [List.mem_append]
      rintro (hin | hin)
      · exact hdisj t' (List.mem_cons_of_mem t ht') hin
      · simp only [resultKeys, List.map_cons, List.map_nil, List.mem_singleton] at hin
        exact hnd.1 (hin ▸ List.mem_map_of_mem ToolType.value ht')
    rw [ih _ hnd.2 hrest, resultKeys_append]
    simp [resultKeys]

/-- Claim C4: the dispatcher of the acting phase catches each
handler's exception per-tool, recording a failed ToolResult carrying
the exception's message under that tool's tag, still runs every
subsequent tool against the prior results, and records one entry per
planned tool under the tool's tag. -/
theorem act_isolates_failures (handlers : ToolType → Handler)
    (plan : List ToolType) (t : ToolType) :
    (∀ (acc : ToolResults) (e : String), handlers t acc = Except.error e →
        dispatchTool (handlers t) acc = failedResult e)
    ∧ act handlers (plan ++ [t])
        = insertResult (act handlers plan) t.value
            (dispatchTool (handlers t) (act handlers plan))
    ∧ ((plan.map ToolType.value).Nodup →
        resultKeys (act handlers plan) = plan.map ToolType.value) := by
  refine ⟨?_, ?_, ?_⟩
  · intro acc e he
    unfold dispatchTool
    rw [he]
  · unfold act
    rw [List.foldl_append]
    rfl
  · intro hnd
    have h := act_keys_go handlers plan [] hnd (by intro t' _ h; cases h)
    simpa [resultKeys] using h

/-- A concrete tool environment whose query-building handler raises. -/
def crashingHandlers : ToolType → Handler :=
  fun t _ => match t with
    | ToolType.QUERY_BUILDER => Except.error "boom"
    | _ => Except.ok { status := "completed" }

/-- Witness for C4 at a concrete plan in which the query builder
raises: the failure is downgraded and recorded, and the validator
still runs afterwards. -/
theorem act_isolates_failures_witness :
    dispatchTool (crashingHandlers ToolType.QUERY_BUILDER) [] = failedResult "boom"
    ∧ resultKeys (act crashingHandlers
        [ToolType.SCHEMA_EXPLORER, ToolType.QUERY_BUILDER, ToolType.RESULT_VALIDATOR])
        = ["schema_explorer", "query_builder", "result_validator"]
    ∧ lookupResult (act crashingHandlers
        [ToolType.SCHEMA_EXPLORER, ToolType.QUERY_BUILDER, ToolType.RESULT_VALIDATOR])
        "query_builder" = some (failedResult "boom") := by
  have h := act_isolates_failures crashingHandlers
    [ToolType.SCHEMA_EXPLORER, ToolType.QUERY_BUILDER, ToolType.RESULT_VALIDATOR]
    ToolType.QUERY_BUILDER
  exact ⟨h.1 [] "boom" rfl, h.2.2 (by decide), by decide⟩

/-- Claim C3: after the acting phase plus the controller's fallback
(lines 122-131), the accumulated tool results always hold a
non-empty SQL string under the `query_builder` tag, and whenever the
acting phase itself produced no (truthy) SQL the stored entry is
exactly the deterministic fallback record. -/
theorem act_phase_guarantees_sql (env : Env) (i : Nat) (userQuery : String) :
    (∃ s, getSql (iterBody env i userQuery) = some s ∧ s ≠ "")
    ∧ (sqlMissing (act (env i) (planTools userQuery)) = true →
        lookupResult (iterBody env i userQuery) "query_builder"
          = some (fallbackResult (constructSqlQuery userQuery ["users"]))) := by
  have hne := constructSqlQuery_ne_empty userQuery ["users"]
  have hnb : (constructSqlQuery userQuery ["users"] == "") = false := by
    simpa [beq_eq_false_iff_ne] using hne
  by_cases hm : sqlMissing (act (env i) (planTools userQuery)) = true
  · have hbody : iterBody env i userQuery
        = insertResult (act (env i) (planTools userQuery)) "query_builder"
            (fallbackResult (constructSqlQuery userQuery ["users"])) := by
      unfold iterBody ensureSql
      rw [hm, if_pos rfl]
      simp [hnb]
    constructor
    · refine ⟨constructSqlQuery userQuery ["users"], ?_, hne⟩
      rw [hbody]
      unfold getSql
      rw [lookupResult_insertResult_self]
      rfl
    · intro _
      rw [hbody, lookupResult_insertResult_self]
  · have hbody : iterBody env i userQuery = act (env i) (planTools userQuery) := by
      unfold iterBody ensureSql
      rw [Bool.not_eq_true] at hm
      rw [hm]
      simp
    constructor
    · rw [Bool.not_eq_true] at hm
      unfold sqlMissing at hm
      cases hg : getSql (act (env i) (planTools userQuery)) with
      | none => rw [hg] at hm; cases hm
      | some s =>
        rw [hg] at hm
        refine ⟨s, ?_, ?_⟩
        · rw [hbody, hg]
        · simpa [beq_eq_false_iff_ne] using hm
    · intro hcon
      exact absurd hcon hm

/-- A tool environment in which every handler raises (e.g. the
external MCP path is down for every tool). -/
def downEnv : Env := fun _ _ _ => Except.error "MCP server unavailable"

/-- Witness for C3 with every handler failing on the query
`count users`: the acting phase leaves no SQL, and the fallback entry
with the locally synthesized COUNT query is stored. -/
theorem act_phase_guarantees_sql_witness :
    sqlMissing (act (downEnv 1) (planTools "count users")) = true
    ∧ lookupResult (iterBody downEnv 1 "count users") "query_builder"
        = some (fallbackResult "SELECT COUNT(*) as user_count FROM users") := by
  refine ⟨by decide, ?_⟩
  have h := (act_phase_guarantees_sql downEnv 1 "count users").2 (by decide)
  rw [h]
  decide

/-- Claim C1: for every refinement behaviour of the observe phase
and every tool environment, the loop started (as `process_query`
starts it) at iteration counter 0 completes within `max_iterations`
body executions, the final counter never exceeds the fixed maximum
5, and extra fuel does not change the outcome (the loop terminates
for every input). -/
theorem loop_counter_bounded_terminates (needsRef : Nat → ToolResults → Bool)
    (env : Env) (userQuery : String) :
    (∃ r, loopGen needsRef env userQuery maxIterations 0 = some r
        ∧ r.1 ≤ maxIterations)
    ∧ (∀ extra, loopGen needsRef env userQuery (maxIterations + extra) 0
        = loopGen needsRef env userQuery maxIterations 0)
    ∧ maxIterations = 5 := by
  have hterm : ∀ (fuel count : Nat), maxIterations ≤ count + fuel →
      count ≤ maxIterations →
      ∃ r, loopGen needsRef env userQuery fuel count = some r
        ∧ r.1 ≤ maxIterations := by
    intro fuel
    induction fuel with
    | zero =>
      intro count h1 h2
      have hc : ¬ count < maxIterations := by omega
      refine ⟨(count, none), ?_, h2⟩
      simp [loopGen, hc]
    | succ f ih =>
      intro count h1 h2
      by_cases hc : count < maxIterations
      · by_cases hr : needsRef (count + 1) (iterBody env (count + 1) userQuery) = true
        · have := ih (count + 1) (by omega) (by omega)
          obtain ⟨r, hr1, hr2⟩ := this
          refine ⟨r, ?_, hr2⟩
          simp only [loopGen, hc, if_true]
          rw [hr]
          exact hr1
        · rw [Bool.not_eq_true] at hr
          refine ⟨(count + 1, some (iterBody env (count + 1) userQuery)), ?_, by omega⟩
          simp only [loopGen, hc, if_true]
          rw [hr]
          rfl
      · refine ⟨(count, none), ?_, h2⟩
        simp [loopGen, hc]
  have hstable : ∀ (fuel extra count : Nat), maxIterations ≤ count + fuel →
      loopGen needsRef env userQuery (fuel + extra) count
        = loopGen needsRef env userQuery fuel count := by
    intro fuel
    induction fuel with
    | zero =>
      intro extra count h1
      have hc : ¬ count < maxIterations := by omega
      cases extra with
      | zero => rfl
      | succ e => simp [loopGen, hc]
    | succ f ih =>
      intro extra count h1
      have harith : f + 1 + extra = (f + extra) + 1 := by omega
      rw [harith]
      by_cases hc : count < maxIterations
      · simp only [loopGen, hc, if_true]
        by_cases hr : needsRef (count + 1) (iterBody env (count + 1) userQuery) = true
        · rw [hr]
          simp only [if_true]
          exact ih extra (count + 1) (by omega)
        · rw [Bool.not_eq_true] at hr
          rw [hr]
          rfl
      · simp [loopGen, hc]
  exact ⟨hterm maxIterations 0 (by omega) (by omega),
    fun extra => hstable maxIterations extra 0 (by omega), rfl⟩

/-- Claim C2: the quality assessment is the fixed constant
`{confidence: 0.8, completeness: 0.9}` independent of the tool
results, refinement is requested exactly when that confidence is
below the 0.7 threshold, and consequently the concrete loop
completes after its first full iteration for every environment —
including environments in which tools failed. -/
theorem constant_confidence_single_iteration :
    (∀ tr : ToolResults,
        assessResultQuality tr = { confidence := 0.8, completeness := 0.9 })
    ∧ (∀ tr : ToolResults,
        observeRefine tr
          = decide ((assessResultQuality tr).confidence < 0.7))
    ∧ (∀ (env : Env) (userQuery : String),
        agenticLoop env userQuery = some (1, some (iterBody env 1 userQuery))) := by
  have hobs : ∀ tr : ToolResults, observeRefine tr = false := by
    intro tr
    simp only [observeRefine, needsRefinementFrom, assessResultQuality,
      decide_eq_false_iff_not, not_lt]
    norm_num
  refine ⟨fun tr => rfl, fun tr => rfl, ?_⟩
  intro env userQuery
  have h5 : maxIterations = 4 + 1 := rfl
  unfold agenticLoop
  rw [h5]
  simp only [loopGen]
  rw [if_pos (by omega : 0 < maxIterations)]
  rw [hobs]
  simp

/-- Claim C5 fails on the code: on `count users` the target entities
are resolved (non-empty), yet the schema explorer is still planned,
because `'complexity_indicators' in intent` is a dict-key-membership
test that is always true.  This refutes the claimed equivalence
between planning the schema explorer and unresolved entities. -/
theorem plan_schema_iff_unresolved_counterexample :
    ¬ ((ToolType.SCHEMA_EXPLORER ∈ planTools "count users")
        ↔ (analyzeDeepIntent "count users").targetEntities.length = 0) := by
  decide

theorem needsSchemaExploration_always (q : String) :
    (analyzeDeepIntent q).needsSchemaExploration = true := by
  simp [analyzeDeepIntent, complexityIndicatorsKeyPresent]

theorem planTools_eq (q : String) :
    planTools q
      = [ToolType.SCHEMA_EXPLORER, ToolType.QUERY_BUILDER]
        ++ (if (assessQueryComplexity (analyzeDeepIntent q)).needsDataAnalysis
            then [ToolType.DATA_ANALYZER] else [])
        ++ (if (assessQueryComplexity (analyzeDeepIntent q)).needsOptimization
            then [ToolType.OPTIMIZER] else [])
        ++ [ToolType.RESULT_VALIDATOR] := by
  show (if (analyzeDeepIntent q).needsSchemaExploration
          then [ToolType.SCHEMA_EXPLORER] else [])
      ++ (if (analyzeDeepIntent q).needsQueryBuilding
          then [ToolType.QUERY_BUILDER] else [])
      ++ (if (assessQueryComplexity (analyzeDeepIntent q)).needsDataAnalysis
          then [ToolType.DATA_ANALYZER] else [])
      ++ (if (assessQueryComplexity (analyzeDeepIntent q)).needsOptimization
          then [ToolType.OPTIMIZER] else [])
      ++ [ToolType.RESULT_VALIDATOR] = _
  rw [needsSchemaExploration_always]
  have h2 : (analyzeDeepIntent q).needsQueryBuilding = true := by
    simp [analyzeDeepIntent]
  rw [h2]
  simp

theorem needsDataAnalysis_iff (i : Intent) :
    (assessQueryComplexity i).needsDataAnalysis
      = decide (3 ≤ (assessQueryComplexity i).score) := by
  simp [assessQueryComplexity]

theorem needsOptimization_iff (i : Intent) :
    (assessQueryComplexity i).needsOptimization
      = decide (4 ≤ (assessQueryComplexity i).score) := by
  simp [assessQueryComplexity]

/-- Claim C5 as amended: the planner always includes the schema
explorer (the key-membership test is constantly true) and the query
builder, includes data analysis exactly when the complexity score is
at least 3 and the optimizer exactly when it is at least 4, and the
result validator is always included, exactly once, in last
position. -/
theorem plan_fixed_precedence (userQuery : String) :
    ToolType.SCHEMA_EXPLORER ∈ planTools userQuery
    ∧ ToolType.QUERY_BUILDER ∈ planTools userQuery
    ∧ (ToolType.DATA_ANALYZER ∈ planTools userQuery
        ↔ 3 ≤ (assessQueryComplexity (analyzeDeepIntent userQuery)).score)
    ∧ (ToolType.OPTIMIZER ∈ planTools userQuery
        ↔ 4 ≤ (assessQueryComplexity (analyzeDeepIntent userQuery)).score)
    ∧ (planTools userQuery).getLast? = some ToolType.RESULT_VALIDATOR
    ∧ ToolType.RESULT_VALIDATOR ∉ (planTools userQuery).dropLast := by
  rw [planTools_eq, needsDataAnalysis_iff, needsOptimization_iff]
  by_cases h3 : 3 ≤ (assessQueryComplexity (analyzeDeepIntent userQuery)).score
    <;> by_cases h4 : 4 ≤ (assessQueryComplexity (analyzeDeepIntent userQuery)).score
    <;> simp [h3, h4]

/-! ### Table-membership and routing lemmas for the synthesizer -/

theorem mem_knownTables_of_mem_schema (t : String) (h : t ∈ schemaKnowledgeTables) :
    t ∈ knownTables := by
  simp only [schemaKnowledgeTables, List.mem_cons, List.not_mem_nil, or_false] at h
  rcases h with h | h | h <;> simp [knownTables, h]

theorem determinePrimaryTable_mem (q : String) (tables : List String)
    (h : ∀ t ∈ tables, t ∈ schemaKnowledgeTables) :
    determinePrimaryTable q tables ∈ knownTables := by
  simp only [determinePrimaryTable]
  repeat' split
  all_goals first
    | decide
    | (apply mem_knownTables_of_mem_schema; apply h; simp_all)

theorem constructSql_count_route (q : String) (tables : List String)
    (h : isCountQuery (lowerStr q) = true) :
    constructSqlQuery q tables
      = buildCountQuery (lowerStr q) (determinePrimaryTable q tables) := by
  simp [constructSqlQuery, h]

theorem constructSql_filter_route (q : String) (tables : List String)
    (hc : isCountQuery (lowerStr q) = false)
    (ha : isAggregateQuery (lowerStr q) = false)
    (hf : isFilterQuery (lowerStr q) = true) :
    constructSqlQuery q tables
      = buildFilterQuery (lowerStr q) (determinePrimaryTable q tables) := by
  simp [constructSqlQuery, hc, ha, hf]

theorem buildCountQuery_spec (ql t : String) (ht : t ∈ knownTables) :
    strContains (buildCountQuery ql t) "COUNT(*)" = true
    ∧ strContains (buildCountQuery ql t) "WHERE" = false := by
  unfold buildCountQuery
  repeat' split
  all_goals first
    | exact ⟨by decide, by decide⟩
    | (fin_cases ht <;> exact ⟨by decide, by decide⟩)

/-- Claim C6: for every query whose lowering contains `count` or
`how many`, the synthesized SQL contains `COUNT(*)`, and contains no
`WHERE` clause unless a filter phrase is also present (in fact the
count branch never emits a WHERE at all). -/
theorem count_queries_count_no_where (q : String) (tables : List String)
    (hcount : strContains (lowerStr q) "count" = true
        ∨ strContains (lowerStr q) "how many" = true)
    (htables : ∀ t ∈ tables, t ∈ schemaKnowledgeTables) :
    strContains (constructSqlQuery q tables) "COUNT(*)" = true
    ∧ (isFilterQuery (lowerStr q) = false →
        strContains (constructSqlQuery q tables) "WHERE" = false) := by
  have hc : isCountQuery (lowerStr q) = true := by
    rcases hcount with h | h <;> simp [isCountQuery, h]
  rw [constructSql_count_route q tables hc]
  have hs := buildCountQuery_spec (lowerStr q) _ (determinePrimaryTable_mem q tables htables)
  exact ⟨hs.1, fun _ => hs.2⟩

/-- Witness for C6 at the concrete query `How many users are there`. -/
theorem count_queries_count_no_where_witness :
    strContains (lowerStr "How many users are there") "how many" = true
    ∧ isFilterQuery (lowerStr "How many users are there") = false
    ∧ strContains (constructSqlQuery "How many users are there" ["users"]) "COUNT(*)" = true
    ∧ strContains (constructSqlQuery "How many users are there" ["users"]) "WHERE" = false := by
  have h := count_queries_count_no_where "How many users are there" ["users"]
    (Or.inr (by decide)) (by decide)
  exact ⟨by decide, by decide, h.1, h.2 (by decide)⟩

/-! ### The unsupported-filter default path -/

theorem filter_components_of_no_match (ql : String)
    (hp : filterPatternMatches ql = false) :
    ageGtNum ql = none ∧ ageLtNum ql = none ∧ priceGtNum ql = none
    ∧ priceLtNum ql = none ∧ emailContainWord ql = none
    ∧ (strContains ql "completed" && strContains ql "order") = false
    ∧ (strContains ql "premium" || strContains ql "subscription") = false := by
  have h1 : ageGtNum ql = none := by
    cases hh : ageGtNum ql with
    | none => rfl
    | some v => unfold filterPatternMatches at hp; rw [hh] at hp; simp at hp
  have h2 : ageLtNum ql = none := by
    cases hh : ageLtNum ql with
    | none => rfl
    | some v => unfold filterPatternMatches at hp; rw [hh] at hp; simp at hp
  have h3 : priceGtNum ql = none := by
    cases hh : priceGtNum ql with
    | none => rfl
    | some v => unfold filterPatternMatches at hp; rw [hh] at hp; simp at hp
  have h4 : priceLtNum ql = none := by
    cases hh : priceLtNum ql with
    | none => rfl
    | some v => unfold filterPatternMatches at hp; rw [hh] at hp; simp at hp
  have h5 : emailContainWord ql = none := by
    cases hh : emailContainWord ql with
    | none => rfl
    | some v => unfold filterPatternMatches at hp; rw [hh] at hp; simp at hp
  unfold filterPatternMatches at hp
  rw [h1, h2, h3, h4, h5] at hp
  simp only [Option.isSome_none, Bool.false_or, Bool.or_eq_false_iff] at hp
  exact ⟨h1, h2, h3, h4, h5, hp.1, by simp [hp.2.1, hp.2.2]⟩

theorem buildFilterQuery_default (ql t : String)
    (h1 : ageGtNum ql = none) (h2 : ageLtNum ql = none)
    (h3 : priceGtNum ql = none) (h4 : priceLtNum ql = none)
    (h5 : emailContainWord ql = none)
    (h6 : (strContains ql "completed" && strContains ql "order") = false)
    (h7 : (strContains ql "premium" || strContains ql "subscription") = false) :
    buildFilterQuery ql t = "SELECT * FROM " ++ t ++ " LIMIT 100" := by
  unfold buildFilterQuery
  rw [h1, h2, h3, h4, h5]
  simp [h6, h7]

/-- Claim C10: a query routed to the filter branch (it carries a
filter phrase and is neither a count nor an aggregate query) that
matches none of the supported filter patterns yields the default
`SELECT * FROM <table> LIMIT 100` with no WHERE clause, and the
query-building tool still reports success (no failure recorded). -/
theorem unsupported_filter_silently_defaults (q : String) (tables : List String)
    (hc : isCountQuery (lowerStr q) = false)
    (ha : isAggregateQuery (lowerStr q) = false)
    (hf : isFilterQuery (lowerStr q) = true)
    (hp : filterPatternMatches (lowerStr q) = false)
    (htables : ∀ t ∈ tables, t ∈ schemaKnowledgeTables) :
    constructSqlQuery q tables
      = "SELECT * FROM " ++ determinePrimaryTable q tables ++ " LIMIT 100"
    ∧ strContains (constructSqlQuery q tables) "WHERE" = false
    ∧ (∀ prev : ToolResults, (localBuildQuery q prev).status = "completed"
        ∧ (localBuildQuery q prev).error = none) := by
  obtain ⟨h1, h2, h3, h4, h5, h6, h7⟩ := filter_components_of_no_match (lowerStr q) hp
  have hroute := constructSql_filter_route q tables hc ha hf
  have hdef := buildFilterQuery_default (lowerStr q) (determinePrimaryTable q tables)
    h1 h2 h3 h4 h5 h6 h7
  refine ⟨hroute.trans hdef, ?_, fun prev => ⟨rfl, rfl⟩⟩
  rw [hroute, hdef]
  have hm := determinePrimaryTable_mem q tables htables
  generalize determinePrimaryTable q tables = p at hm ⊢
  fin_cases hm <;> decide

/-- Witness for C10 at the concrete query `show users with city
boston`: classified as a filter query via `with`, matching no
supported column pattern, and yielding the unfiltered default. -/
theorem unsupported_filter_silently_defaults_witness :
    isFilterQuery (lowerStr "show users with city boston") = true
    ∧ filterPatternMatches (lowerStr "show users with city boston") = false
    ∧ constructSqlQuery "show users with city boston" ["users"]
        = "SELECT * FROM users LIMIT 100" := by
  refine ⟨by decide, by decide, ?_⟩
  have h := unsupported_filter_silently_defaults "show users with city boston" ["users"]
    (by decide) (by decide) (by decide) (by decide) (by decide)
  rw [h.1]
  decide

end AgenticEngine
